import Mathlib

set_option linter.unusedVariables false

/-!
Shallow embedding of the go-mapbox client library (packages `base` and
`tilesets`).  Pure computations (URL construction, field updates) are
translated directly.  Calls into external libraries (net/http, os,
encoding/json, mime/multipart) are modelled by explicit result parameters:
an HTTP round trip yields either a transport error string or a response
(status code plus body), `os.Open` yields an error string or success, and
`json.Unmarshal` into a given target type is an oracle function from the
raw body to `Option` of the decoded value (`none` = unmarshal error).
The control flow of each Go function is translated statement by statement.
-/

namespace GoMapbox

/-- Errors produced by the client.  The two sentinel errors
`ErrorAPILimitExceeded` and `ErrorAPIUnauthorized` (declared in the base
package of the repository) are distinguished constructors, matching Go's
identity-compared sentinel error values; `message s` models an error built
with `errors.New`/`fmt.Errorf` with text `s`; `external s` models an error
value propagated unchanged from a library call (net/http, os, json). -/
inductive MBError where
  | apiLimitExceeded : MBError
  | apiUnauthorized : MBError
  | message (s : String) : MBError
  | external (s : String) : MBError
deriving DecidableEq

/-- An error is one of the two named sentinel values. -/
def MBError.isSentinel : MBError → Bool
  | .apiLimitExceeded => true
  | .apiUnauthorized => true
  | _ => false

/-- Model of `*http.Response`: the status code and the bytes that
`ioutil.ReadAll(response.Body)` yields. -/
structure HTTPResponse where
  statusCode : Nat
  body : String
deriving DecidableEq

/-- Result of an HTTP round trip (`http.Get` / `client.Do`): a transport
error or a response. -/
def HTTPResult : Type := Except String HTTPResponse

/-- Outcome of a Go function returning `(T, error)` that may additionally
panic (nil-pointer dereference) or terminate the process (`log.Fatal`). -/
inductive Outcome (α : Type) where
  | ok (a : α) : Outcome α
  | err (e : MBError) : Outcome α
  | panic (msg : String) : Outcome α
  | fatal (msg : String) : Outcome α
deriving DecidableEq

/-- The `Base` struct of the base package: token and debug flag. -/
structure Base where
  token : String
  debug : Bool
deriving DecidableEq

/-- BaseURL constant: `https://api.mapbox.com`. -/
def BaseURL : String := "https://api.mapbox.com"

/-- NewBase: reject an empty token, otherwise build a `Base` whose `token`
field is the argument; `debug` keeps Go's zero value `false`. -/
def NewBase (token : String) : Except MBError Base :=
  if token = "" then .error (.message "Mapbox API token not found")
  else .ok { token := token, debug := false }

/-- SetDebug from the source: the body is `b.debug = true`, ignoring the
argument. -/
def Base.SetDebug (b : Base) (debug : Bool) : Base :=
  { b with debug := true }

/-- MapboxAPIMessage DTO. -/
structure MapboxAPIMessage where
  Message : String
deriving DecidableEq

/-- URL built by SimpleGET:
`fmt.Sprintf("%s/%s?access_token=%s", BaseURL, url, b.token)`. -/
def Base.simpleGETURL (b : Base) (url : String) : String :=
  BaseURL ++ "/" ++ url ++ "?access_token=" ++ b.token

/-- Behaviour of SimpleGET given the result of `http.Get`: propagate a
transport error, otherwise return the body (the `ReadAll` error is
discarded and the status code is never inspected). -/
def Base.SimpleGET (b : Base) (url : String) (get : HTTPResult) :
    Except MBError String :=
  match get with
  | .error e => .error (.external e)
  | .ok response => .ok response.body

/-- URL built by PostRequest:
`fmt.Sprintf("%s/%s?access_token=%s", BaseURL, postURL, b.token)`. -/
def Base.postRequestURL (b : Base) (postURL : String) : String :=
  BaseURL ++ "/" ++ postURL ++ "?access_token=" ++ b.token

/-- Behaviour of PostRequest given the result of `client.Do`: propagate a
transport error, otherwise return the body regardless of status code. -/
def Base.PostRequest (b : Base) (postURL : String) (data : Option String)
    (doResult : HTTPResult) : Except MBError String :=
  match doResult with
  | .error e => .error (.external e)
  | .ok response => .ok response.body

/-- URL built by PostUploadFileRequest:
`fmt.Sprintf("%s/%s/?access_token=%s", BaseURL, postURL, b.token)`. -/
def Base.postUploadFileRequestURL (b : Base) (postURL : String) : String :=
  BaseURL ++ "/" ++ postURL ++ "/?access_token=" ++ b.token

/-- Behaviour of PostUploadFileRequest.  `openResult` models
`os.Open(file)`, `createFormResult` models `writer.CreateFormFile`,
`doResult` models `client.Do(request)` and `decodeAPIMessage` models
`json.Unmarshal(resBody, &apiMessage)`.  Note that in the source the error
of `client.Do` is immediately shadowed by
`resBody, err := ioutil.ReadAll(response.Body)`, which dereferences the
nil response when `Do` failed, so that path panics. -/
def Base.PostUploadFileRequest (b : Base)
    (openResult : Except String Unit)
    (createFormResult : Except String Unit)
    (doResult : HTTPResult)
    (decodeAPIMessage : String → Option MapboxAPIMessage) :
    Outcome String :=
  match openResult with
  | .error e => .err (.external e)
  | .ok _ =>
    match createFormResult with
    | .error e => .err (.external e)
    | .ok _ =>
      match doResult with
      | .error _ => .panic "runtime error: invalid memory address or nil pointer dereference"
      | .ok response =>
        if response.statusCode ≠ 200 then
          match decodeAPIMessage response.body with
          | some apiMessage => .err (.message ("api error: " ++ apiMessage.Message))
          | none => .err (.message "Bad Request (400) - no message")
        else .ok response.body

/-- Model of `net/url` Values: an association list; `Set` replaces every
binding of the key. -/
def Values : Type := List (String × String)

/-- Values.Set: replace the bindings of `key` by the single value `val`. -/
def Values.set (v : Values) (key val : String) : Values :=
  (key, val) :: v.filter (fun p => p.1 ≠ key)

/-- Lookup of the value a key maps to. -/
def Values.get (v : Values) (key : String) : Option String :=
  (v.find? (fun p => p.1 == key)).map Prod.snd

/-- URL built by QueryRequest before the encoded query is attached:
`fmt.Sprintf("%s/%s", BaseURL, query)`. -/
def Base.queryRequestURL (b : Base) (query : String) : String :=
  BaseURL ++ "/" ++ query

/-- Query values sent by QueryRequest: the caller's values after
`v.Set("access_token", b.token)`. -/
def Base.queryRequestValues (b : Base) (v : Values) : Values :=
  v.set "access_token" b.token

/-- Behaviour of QueryRequest, returning the `(resp, err)` pair of the Go
function.  `newReqResult` models `http.NewRequest`, `doResult` models
`client.Do`.  A 429 status maps to the sentinel `ErrorAPILimitExceeded`
with a nil response, a 401 status to `ErrorAPIUnauthorized` with a nil
response; any other response is returned with a nil error. -/
def Base.QueryRequest (b : Base) (query : String) (v : Values)
    (newReqResult : Except String Unit) (doResult : HTTPResult) :
    Option HTTPResponse × Option MBError :=
  match newReqResult with
  | .error e => (none, some (.external e))
  | .ok _ =>
    match doResult with
    | .error e => (none, some (.external e))
    | .ok resp =>
      if resp.statusCode = 429 then (none, some .apiLimitExceeded)
      else if resp.statusCode = 401 then (none, some .apiUnauthorized)
      else (some resp, none)

/-- Body-handling tail of QueryBase once a response is in hand:
`readErr` models a failure of `ioutil.ReadAll(resp.Body)`; a 400 status
is opportunistically decoded as a MapboxAPIMessage; otherwise the body is
unmarshalled into the caller's instance (`decodeInst`, `none` meaning
`json.Unmarshal` returned an error with text `instErrText`). -/
def queryBaseBody (resp : HTTPResponse) (readErr : Option String)
    (decodeAPIMessage : String → Option MapboxAPIMessage)
    (decodeInst : String → Option Unit) (instErrText : String) :
    Outcome Unit :=
  match readErr with
  | some e => .err (.external e)
  | none =>
    if resp.statusCode = 400 then
      match decodeAPIMessage resp.body with
      | some apiMessage => .err (.message ("api error: " ++ apiMessage.Message))
      | none => .err (.message "Bad Request (400) - no message")
    else
      match decodeInst resp.body with
      | none => .err (.external instErrText)
      | some _ => .ok ()

/-- Behaviour of QueryBase: make the QueryRequest, return its error unless
the response is non-nil with status 400, then process the body.  The
`(nil, nil)` pair would make `resp.Body.Close()` panic; QueryRequest never
produces it, but the translation keeps the Go behaviour at that point. -/
def Base.QueryBase (b : Base) (query : String) (v : Values)
    (newReqResult : Except String Unit) (doResult : HTTPResult)
    (readErr : Option String)
    (decodeAPIMessage : String → Option MapboxAPIMessage)
    (decodeInst : String → Option Unit) (instErrText : String) :
    Outcome Unit :=
  match b.QueryRequest query v newReqResult doResult with
  | (none, some e) => .err e
  | (some resp, some e) =>
    if resp.statusCode ≠ 400 then .err e
    else queryBaseBody resp readErr decodeAPIMessage decodeInst instErrText
  | (none, none) => .panic "runtime error: invalid memory address or nil pointer dereference"
  | (some resp, none) => queryBaseBody resp readErr decodeAPIMessage decodeInst instErrText

/-- The constant `apiName` of the tilesets package. -/
def apiName : String := "tilesets"

/-- The constant `apiVersion` of the tilesets package. -/
def apiVersion : String := "v1"

/-- The Tileset struct: base client plus username and tilesetID. -/
structure Tileset where
  base : Base
  username : String
  tilesetID : String
deriving DecidableEq

/-- NewTileset: both name fields start empty. -/
def NewTileset (base : Base) : Tileset :=
  ⟨base, "", ""⟩

/-- SetTileset: set the username and tilesetID fields. -/
def Tileset.SetTileset (t : Tileset) (username : String) (tilesetID : String) :
    Tileset :=
  { t with username := username, tilesetID := tilesetID }

/-- postURL of the tilesets package:
`fmt.Sprintf("%s/%s/%s", apiName, apiVersion, fmt.Sprintf("%s.%s", t.username, t.tilesetID))`. -/
def Tileset.postURL (t : Tileset) : String :=
  apiName ++ "/" ++ apiVersion ++ "/" ++ (t.username ++ "." ++ t.tilesetID)

/-- UploadResponse DTO. -/
structure UploadResponse where
  FileSize : Int
  Files : Int
  SourceSize : Int
  ID : String
deriving DecidableEq

/-- PublishResponse DTO. -/
structure PublishResponse where
  Message : String
  JobID : String
deriving DecidableEq

/-- StatusResponse DTO. -/
structure StatusResponse where
  ID : String
  LatestJob : String
  Status : String
deriving DecidableEq

/-- Go zero value of StatusResponse. -/
def zeroStatusResponse : StatusResponse := ⟨"", "", ""⟩

/-- URL UploadGeoJSON posts to:
`fmt.Sprintf("%s/%s/sources/%s/%s", apiName, apiVersion, t.username, t.tilesetID)`. -/
def Tileset.uploadGeoJSONURL (t : Tileset) : String :=
  apiName ++ "/" ++ apiVersion ++ "/sources/" ++ t.username ++ "/" ++ t.tilesetID

/-- Behaviour of UploadGeoJSON: delegate to PostUploadFileRequest,
propagate its error; on success unmarshal the body into an UploadResponse
(`decodeUpload`), and on unmarshal failure call `log.Fatal(err)`, which
terminates the process. -/
def Tileset.UploadGeoJSON (t : Tileset)
    (openResult : Except String Unit)
    (createFormResult : Except String Unit)
    (doResult : HTTPResult)
    (decodeAPIMessage : String → Option MapboxAPIMessage)
    (decodeUpload : String → Option UploadResponse) :
    Outcome UploadResponse :=
  match t.base.PostUploadFileRequest openResult createFormResult doResult decodeAPIMessage with
  | .err e => .err e
  | .panic msg => .panic msg
  | .fatal msg => .fatal msg
  | .ok res =>
    match decodeUpload res with
    | none => .fatal "json unmarshal error"
    | some uploadResponse => .ok uploadResponse

/-- Behaviour of CreateTileset: open the recipe file (`openResult`), read
it (`data`, with the ReadAll error discarded), POST it to `t.postURL()`,
propagate a POST error; the result of
`json.Unmarshal(res, &maboxAPIMessage)` is discarded, so on unmarshal
failure the zero-valued message is returned with a nil error. -/
def Tileset.CreateTileset (t : Tileset)
    (openResult : Except String Unit)
    (data : String)
    (doResult : HTTPResult)
    (decodeAPIMessage : String → Option MapboxAPIMessage) :
    Outcome MapboxAPIMessage :=
  match openResult with
  | .error e => .err (.external e)
  | .ok _ =>
    match t.base.PostRequest t.postURL (some data) doResult with
    | .error e => .err e
    | .ok res => .ok ((decodeAPIMessage res).getD ⟨""⟩)

/-- URL PublishTileset posts to: `t.postURL() + "/publish"`. -/
def Tileset.publishURL (t : Tileset) : String :=
  t.postURL ++ "/publish"

/-- URL CheckJobStatus polls: `t.postURL() + "/status"`. -/
def Tileset.statusURL (t : Tileset) : String :=
  t.postURL ++ "/status"

/-- Behaviour of PublishTileset: POST nil data to `t.postURL() + "/publish"`,
propagate a POST error; the result of
`json.Unmarshal(res, &publishResponse)` is discarded, so on unmarshal
failure the zero-valued response is returned with a nil error. -/
def Tileset.PublishTileset (t : Tileset)
    (doResult : HTTPResult)
    (decodePublish : String → Option PublishResponse) :
    Outcome PublishResponse :=
  match t.base.PostRequest t.publishURL none doResult with
  | .error e => .err e
  | .ok res => .ok ((decodePublish res).getD ⟨"", ""⟩)

/-- Behaviour of CheckJobStatus, fuel-indexed.  `polls i` is the result of
the `http.Get` performed by the i-th iteration's
`t.base.SimpleGET(t.postURL() + "/status")`; `decodeStatus` models
`json.Unmarshal(res, statusResponse)`, whose error is discarded so a body
that fails to decode leaves the zero-valued StatusResponse.  The loop
returns `some (some e)` when the GET fails, `some none` (a nil error) when
the decoded status is "failed" or "success", and otherwise sleeps 5
seconds and iterates; `none` means the loop is still running after `fuel`
iterations. -/
def Tileset.CheckJobStatus (t : Tileset)
    (decodeStatus : String → Option StatusResponse) :
    (Nat → HTTPResult) → Nat → Option (Option MBError)
  | _, 0 => none
  | polls, fuel + 1 =>
    match t.base.SimpleGET t.statusURL (polls 0) with
    | .error e => some (some e)
    | .ok res =>
      let statusResponse := (decodeStatus res).getD zeroStatusResponse
      if statusResponse.Status = "failed" then some none
      else if statusResponse.Status = "success" then some none
      else t.CheckJobStatus decodeStatus (fun i => polls (i + 1)) fuel

/-- C8: SetDebug sets the debug field to true for every boolean argument,
including `false`; the argument is ignored, so calling SetDebug can never
disable debug output. -/
theorem setDebug_always_sets_true (b : Base) (arg : Bool) :
    (b.SetDebug arg).debug = true ∧ b.SetDebug false = b.SetDebug true :=
  ⟨rfl, rfl⟩

/-- C9: NewBase errors exactly on the empty token; for every non-empty
token it returns a Base whose token field is the argument and whose debug
field is false. -/
theorem newBase_empty_iff_error (token : String) :
    ((∃ e, NewBase token = .error e) ↔ token = "")
    ∧ (token ≠ "" → NewBase token = .ok ⟨token, false⟩) := by
  by_cases h : token = "" <;>
    simp [NewBase, h]

/-- Witness for `newBase_empty_iff_error` at the tokens "abc" and "". -/
theorem newBase_empty_iff_error_witness :
    NewBase "abc" = .ok ⟨"abc", false⟩ ∧ ∃ e, NewBase "" = .error e :=
  ⟨(newBase_empty_iff_error "abc").2 (by decide),
   (newBase_empty_iff_error "").1.mpr rfl⟩

/-- C6: after `SetTileset u ts` the endpoint URLs are deterministic:
postURL is exactly `tilesets/v1/u.ts`, the publish and status endpoints
append `/publish` and `/status` to it, and UploadGeoJSON posts to exactly
`tilesets/v1/sources/u/ts`. -/
theorem tileset_endpoint_urls (t : Tileset) (u ts : String) :
    ((t.SetTileset u ts).postURL = "tilesets/v1/" ++ u ++ "." ++ ts)
    ∧ ((t.SetTileset u ts).uploadGeoJSONURL = "tilesets/v1/sources/" ++ u ++ "/" ++ ts)
    ∧ ((t.SetTileset u ts).publishURL = "tilesets/v1/" ++ u ++ "." ++ ts ++ "/publish")
    ∧ ((t.SetTileset u ts).statusURL = "tilesets/v1/" ++ u ++ "." ++ ts ++ "/status") := by
  refine ⟨?_, ?_, ?_, ?_⟩ <;>
    simp [Tileset.SetTileset, Tileset.postURL, Tileset.uploadGeoJSONURL,
      Tileset.publishURL, Tileset.statusURL, apiName, apiVersion,
      ← String.append_assoc]

/-- C5: every request URL is rooted at `https://api.mapbox.com`, and the
token travels as the `access_token` query parameter: the three
Sprintf-built URLs end in `?access_token=<token>` (with the upload variant
using `/?access_token=`), and QueryRequest sets `access_token` to the
token in the query values it encodes. -/
theorem request_urls_rooted_and_tokened (b : Base) (url query : String) (v : Values) :
    (∃ rest, b.simpleGETURL url = BaseURL ++ rest)
    ∧ (∃ p, b.simpleGETURL url = p ++ ("?access_token=" ++ b.token))
    ∧ (∃ rest, b.postRequestURL url = BaseURL ++ rest)
    ∧ (∃ p, b.postRequestURL url = p ++ ("?access_token=" ++ b.token))
    ∧ (∃ rest, b.postUploadFileRequestURL url = BaseURL ++ rest)
    ∧ (∃ p, b.postUploadFileRequestURL url = p ++ ("/?access_token=" ++ b.token))
    ∧ (∃ rest, b.queryRequestURL query = BaseURL ++ rest)
    ∧ (b.queryRequestValues v).get "access_token" = some b.token := by
  refine ⟨⟨"/" ++ url ++ "?access_token=" ++ b.token, ?_⟩,
    ⟨BaseURL ++ "/" ++ url, ?_⟩,
    ⟨"/" ++ url ++ "?access_token=" ++ b.token, ?_⟩,
    ⟨BaseURL ++ "/" ++ url, ?_⟩,
    ⟨"/" ++ url ++ "/?access_token=" ++ b.token, ?_⟩,
    ⟨BaseURL ++ "/" ++ url, ?_⟩,
    ⟨"/" ++ query, ?_⟩, ?_⟩ <;>
    simp [Base.simpleGETURL, Base.postRequestURL, Base.postUploadFileRequestURL,
      Base.queryRequestURL, Base.queryRequestValues, Values.set, Values.get,
      List.find?, ← String.append_assoc]

/-- C7: CreateTileset and PublishTileset discard the `json.Unmarshal`
error: with a successful POST and an undecodable body they return the
zero-valued struct with a nil error; CheckJobStatus treats an undecodable
status body as a non-terminal status and keeps polling at every fuel. -/
theorem decode_failures_ignored (t : Tileset) (data : String)
    (resp : HTTPResponse)
    (decodeAPIMessage : String → Option MapboxAPIMessage)
    (decodePublish : String → Option PublishResponse)
    (decodeStatus : String → Option StatusResponse)
    (polls : Nat → HTTPResult) :
    (decodeAPIMessage resp.body = none →
      t.CreateTileset (.ok ()) data (.ok resp) decodeAPIMessage = .ok ⟨""⟩)
    ∧ (decodePublish resp.body = none →
      t.PublishTileset (.ok resp) decodePublish = .ok ⟨"", ""⟩)
    ∧ ((∀ i, ∃ r, polls i = .ok r ∧ decodeStatus r.body = none) →
      ∀ fuel, t.CheckJobStatus decodeStatus polls fuel = none) := by
  refine ⟨fun h => ?_, fun h => ?_, fun h fuel => ?_⟩
  · simp [Tileset.CreateTileset, Base.PostRequest, h]
  · simp [Tileset.PublishTileset, Base.PostRequest, h]
  · induction fuel generalizing polls with
    | zero => rfl
    | succ n ih =>
      obtain ⟨r, hr, hd⟩ := h 0
      simp [Tileset.CheckJobStatus, Base.SimpleGET, hr, hd, zeroStatusResponse]
      exact ih (fun i => polls (i + 1)) (fun i => h (i + 1))

/-- Witness for `decode_failures_ignored`: a body that no decoder accepts
yields the zero-valued message and publish response, and five polls of an
undecodable status body leave the loop running. -/
theorem decode_failures_ignored_witness :
    Tileset.CreateTileset ⟨⟨"tok", false⟩, "u", "t"⟩ (.ok ()) "recipe" (.ok ⟨200, "notjson"⟩)
      (fun _ => none) = .ok ⟨""⟩
    ∧ Tileset.PublishTileset ⟨⟨"tok", false⟩, "u", "t"⟩ (.ok ⟨200, "notjson"⟩)
      (fun _ => none) = .ok ⟨"", ""⟩
    ∧ Tileset.CheckJobStatus ⟨⟨"tok", false⟩, "u", "t"⟩ (fun _ => none)
      (fun _ => .ok ⟨200, "notjson"⟩) 5 = none := by
  obtain ⟨h1, h2, h3⟩ := decode_failures_ignored ⟨⟨"tok", false⟩, "u", "t"⟩ "recipe"
    ⟨200, "notjson"⟩ (fun _ => none) (fun _ => none) (fun _ => none)
    (fun _ => .ok ⟨200, "notjson"⟩)
  exact ⟨h1 rfl, h2 rfl, h3 (fun i => ⟨⟨200, "notjson"⟩, rfl, rfl⟩) 5⟩

/-- C1: CheckJobStatus returns the GET error when the status GET fails,
returns a nil error as soon as the decoded status is "failed" or
"success", and for a poll stream of successful GETs whose decoded statuses
are all non-terminal it keeps sleeping 5 seconds and polling: at every
fuel bound the loop is still running, so it never terminates. -/
theorem checkJobStatus_poll_until_terminal (t : Tileset)
    (decodeStatus : String → Option StatusResponse) (polls : Nat → HTTPResult) :
    (∀ e, polls 0 = .error e →
      ∀ fuel, t.CheckJobStatus decodeStatus polls (fuel + 1) = some (some (.external e)))
    ∧ (∀ r, polls 0 = .ok r →
      (((decodeStatus r.body).getD zeroStatusResponse).Status = "failed" ∨
        ((decodeStatus r.body).getD zeroStatusResponse).Status = "success") →
      ∀ fuel, t.CheckJobStatus decodeStatus polls (fuel + 1) = some none)
    ∧ ((∀ i, ∃ r, polls i = .ok r ∧
        ((decodeStatus r.body).getD zeroStatusResponse).Status ≠ "failed" ∧
        ((decodeStatus r.body).getD zeroStatusResponse).Status ≠ "success") →
      ∀ fuel, t.CheckJobStatus decodeStatus polls fuel = none) := by
  refine ⟨fun e he fuel => ?_, fun r hr hterm fuel => ?_, fun h fuel => ?_⟩
  · simp [Tileset.CheckJobStatus, Base.SimpleGET, he]
  · rcases hterm with hs | hs <;>
      simp [Tileset.CheckJobStatus, Base.SimpleGET, hr, hs]
  · induction fuel generalizing polls with
    | zero => rfl
    | succ n ih =>
      obtain ⟨r, hr, h1, h2⟩ := h 0
      simp [Tileset.CheckJobStatus, Base.SimpleGET, hr, h1, h2]
      exact ih (fun i => polls (i + 1)) (fun i => h (i + 1))

/-- Witness for `checkJobStatus_poll_until_terminal`: a failing GET
returns its error, a body decoding to status "failed" returns a nil
error, and an endless stream of non-terminal bodies leaves the loop
running after five iterations. -/
theorem checkJobStatus_poll_until_terminal_witness :
    Tileset.CheckJobStatus ⟨⟨"tok", false⟩, "u", "t"⟩
      (fun s => if s = "f" then some ⟨"", "", "failed"⟩ else none)
      (fun _ => .error "boom") 1 = some (some (.external "boom"))
    ∧ Tileset.CheckJobStatus ⟨⟨"tok", false⟩, "u", "t"⟩
      (fun s => if s = "f" then some ⟨"", "", "failed"⟩ else none)
      (fun _ => .ok ⟨200, "f"⟩) 1 = some none
    ∧ Tileset.CheckJobStatus ⟨⟨"tok", false⟩, "u", "t"⟩
      (fun s => if s = "f" then some ⟨"", "", "failed"⟩ else none)
      (fun _ => .ok ⟨200, "pending"⟩) 5 = none := by
  refine ⟨?_, ?_, ?_⟩
  · exact (checkJobStatus_poll_until_terminal ⟨⟨"tok", false⟩, "u", "t"⟩
      (fun s => if s = "f" then some ⟨"", "", "failed"⟩ else none)
      (fun _ => .error "boom")).1 "boom" rfl 0
  · exact (checkJobStatus_poll_until_terminal ⟨⟨"tok", false⟩, "u", "t"⟩
      (fun s => if s = "f" then some ⟨"", "", "failed"⟩ else none)
      (fun _ => .ok ⟨200, "f"⟩)).2.1 ⟨200, "f"⟩ rfl (Or.inl (by decide)) 0
  · exact (checkJobStatus_poll_until_terminal ⟨⟨"tok", false⟩, "u", "t"⟩
      (fun s => if s = "f" then some ⟨"", "", "failed"⟩ else none)
      (fun _ => .ok ⟨200, "pending"⟩)).2.2
      (fun i => ⟨⟨200, "pending"⟩, rfl, by decide, by decide⟩) 5

/-- C3: QueryRequest maps a 429 response to the sentinel
ErrorAPILimitExceeded with a nil response and a 401 response to the
sentinel ErrorAPIUnauthorized with a nil response; any other response
comes back with a nil error, transport and request-construction failures
come back as non-sentinel errors, and the error paths of SimpleGET,
PostRequest and PostUploadFileRequest never produce a sentinel. -/
theorem queryRequest_sentinel_errors (b : Base) (query url : String) (v : Values) :
    (∀ resp, resp.statusCode = 429 →
      b.QueryRequest query v (.ok ()) (.ok resp) = (none, some .apiLimitExceeded))
    ∧ (∀ resp, resp.statusCode = 401 →
      b.QueryRequest query v (.ok ()) (.ok resp) = (none, some .apiUnauthorized))
    ∧ (∀ resp, resp.statusCode ≠ 429 → resp.statusCode ≠ 401 →
      b.QueryRequest query v (.ok ()) (.ok resp) = (some resp, none))
    ∧ MBError.apiLimitExceeded.isSentinel = true
    ∧ MBError.apiUnauthorized.isSentinel = true
    ∧ (∀ e doResult, b.QueryRequest query v (.error e) doResult
        = (none, some (.external e)) ∧ (MBError.external e).isSentinel = false)
    ∧ (∀ e, b.QueryRequest query v (.ok ()) (.error e)
        = (none, some (.external e)) ∧ (MBError.external e).isSentinel = false)
    ∧ (∀ get e, b.SimpleGET url get = .error e → e.isSentinel = false)
    ∧ (∀ data doResult e, b.PostRequest url data doResult = .error e → e.isSentinel = false)
    ∧ (∀ openR createR doResult decM e,
        b.PostUploadFileRequest openR createR doResult decM = .err e → e.isSentinel = false) := by
  refine ⟨fun resp hs => ?_, fun resp hs => ?_, fun resp h1 h2 => ?_, rfl, rfl,
    fun e doResult => ⟨rfl, rfl⟩, fun e => ⟨rfl, rfl⟩,
    fun get e h => ?_, fun data doResult e h => ?_,
    fun openR createR doResult decM e h => ?_⟩
  · simp [Base.QueryRequest, hs]
  · by_cases h429 : resp.statusCode = 429
    · exact absurd hs (by simp [h429])
    · simp [Base.QueryRequest, hs, h429]
  · simp [Base.QueryRequest, h1, h2]
  · cases get with
    | error s => simp [Base.SimpleGET] at h; simp [← h, MBError.isSentinel]
    | ok resp => simp [Base.SimpleGET] at h
  · cases doResult with
    | error s => simp [Base.PostRequest] at h; simp [← h, MBError.isSentinel]
    | ok resp => simp [Base.PostRequest] at h
  · cases openR with
    | error s => simp [Base.PostUploadFileRequest] at h; simp [← h, MBError.isSentinel]
    | ok u =>
      cases createR with
      | error s => simp [Base.PostUploadFileRequest] at h; simp [← h, MBError.isSentinel]
      | ok u =>
        cases doResult with
        | error s => simp [Base.PostUploadFileRequest] at h
        | ok resp =>
          by_cases hs : resp.statusCode = 200
          · simp [Base.PostUploadFileRequest, hs] at h
          · cases hm : decM resp.body with
            | some m =>
              simp [Base.PostUploadFileRequest, hs, hm] at h
              simp [← h, MBError.isSentinel]
            | none =>
              simp [Base.PostUploadFileRequest, hs, hm] at h
              simp [← h, MBError.isSentinel]

/-- Witness for `queryRequest_sentinel_errors` at concrete responses with
status codes 429, 401 and 200, a failing transport, and a failing
multipart upload. -/
theorem queryRequest_sentinel_errors_witness :
    Base.QueryRequest ⟨"tok", false⟩ "q" [] (.ok ()) (.ok ⟨429, "body"⟩)
      = (none, some .apiLimitExceeded)
    ∧ Base.QueryRequest ⟨"tok", false⟩ "q" [] (.ok ()) (.ok ⟨401, "body"⟩)
      = (none, some .apiUnauthorized)
    ∧ Base.QueryRequest ⟨"tok", false⟩ "q" [] (.ok ()) (.ok ⟨200, "body"⟩)
      = (some ⟨200, "body"⟩, none)
    ∧ MBError.isSentinel (.external "eof") = false
    ∧ MBError.isSentinel (.message "Bad Request (400) - no message") = false := by
  obtain ⟨h429, h401, hok, _, _, _, _, hget, _, hup⟩ :=
    queryRequest_sentinel_errors ⟨"tok", false⟩ "q" "u" []
  refine ⟨h429 ⟨429, "body"⟩ rfl, h401 ⟨401, "body"⟩ rfl,
    hok ⟨200, "body"⟩ (by decide) (by decide),
    hget (.error "eof") (.external "eof") rfl,
    hup (.ok ()) (.ok ()) (.ok ⟨400, "notjson"⟩) (fun _ => none)
      (.message "Bad Request (400) - no message") rfl⟩

/-- C4: on an error status (any non-200 in PostUploadFileRequest, a 400 in
QueryBase) the body is opportunistically decoded as a MapboxAPIMessage:
a successful decode yields the error "api error: <message>", a failed
decode yields the error "Bad Request (400) - no message". -/
theorem apiMessage_extraction (b : Base) (query : String) (v : Values)
    (decodeAPIMessage : String → Option MapboxAPIMessage)
    (decodeInst : String → Option Unit) (instErrText : String) :
    (∀ resp, resp.statusCode ≠ 200 →
      (∀ m, decodeAPIMessage resp.body = some m →
        b.PostUploadFileRequest (.ok ()) (.ok ()) (.ok resp) decodeAPIMessage
          = .err (.message ("api error: " ++ m.Message)))
      ∧ (decodeAPIMessage resp.body = none →
        b.PostUploadFileRequest (.ok ()) (.ok ()) (.ok resp) decodeAPIMessage
          = .err (.message "Bad Request (400) - no message")))
    ∧ (∀ resp, resp.statusCode = 400 →
      (∀ m, decodeAPIMessage resp.body = some m →
        b.QueryBase query v (.ok ()) (.ok resp) none decodeAPIMessage decodeInst instErrText
          = .err (.message ("api error: " ++ m.Message)))
      ∧ (decodeAPIMessage resp.body = none →
        b.QueryBase query v (.ok ()) (.ok resp) none decodeAPIMessage decodeInst instErrText
          = .err (.message "Bad Request (400) - no message"))) := by
  refine ⟨fun resp hs => ⟨fun m hm => ?_, fun hm => ?_⟩,
    fun resp hs => ⟨fun m hm => ?_, fun hm => ?_⟩⟩
  · simp [Base.PostUploadFileRequest, hs, hm]
  · simp [Base.PostUploadFileRequest, hs, hm]
  · simp [Base.QueryBase, Base.QueryRequest, queryBaseBody, hs, hm]
  · simp [Base.QueryBase, Base.QueryRequest, queryBaseBody, hs, hm]

/-- Witness for `apiMessage_extraction`: a 400 response whose body the
decoder turns into the message "oops", and one it cannot decode. -/
theorem apiMessage_extraction_witness :
    Base.PostUploadFileRequest ⟨"tok", false⟩ (.ok ()) (.ok ()) (.ok ⟨400, "good"⟩)
      (fun s => if s = "good" then some ⟨"oops"⟩ else none)
      = .err (.message "api error: oops")
    ∧ Base.PostUploadFileRequest ⟨"tok", false⟩ (.ok ()) (.ok ()) (.ok ⟨500, "bad"⟩)
      (fun s => if s = "good" then some ⟨"oops"⟩ else none)
      = .err (.message "Bad Request (400) - no message")
    ∧ Base.QueryBase ⟨"tok", false⟩ "q" [] (.ok ()) (.ok ⟨400, "good"⟩) none
      (fun s => if s = "good" then some ⟨"oops"⟩ else none) (fun _ => some ()) "jsonerr"
      = .err (.message "api error: oops")
    ∧ Base.QueryBase ⟨"tok", false⟩ "q" [] (.ok ()) (.ok ⟨400, "bad"⟩) none
      (fun s => if s = "good" then some ⟨"oops"⟩ else none) (fun _ => some ()) "jsonerr"
      = .err (.message "Bad Request (400) - no message") := by
  obtain ⟨hpost, hquery⟩ := apiMessage_extraction ⟨"tok", false⟩ "q" []
    (fun s => if s = "good" then some ⟨"oops"⟩ else none) (fun _ => some ()) "jsonerr"
  refine ⟨(hpost ⟨400, "good"⟩ (by decide)).1 ⟨"oops"⟩ (by decide),
    (hpost ⟨500, "bad"⟩ (by decide)).2 (by decide),
    (hquery ⟨400, "good"⟩ rfl).1 ⟨"oops"⟩ (by decide),
    (hquery ⟨400, "bad"⟩ rfl).2 (by decide)⟩

/-- C2 counterexample: when the multipart POST succeeds with status 200
but the response body fails to unmarshal into an UploadResponse,
UploadGeoJSON does not return the decode error to the caller: it calls
`log.Fatal(err)`, terminating the process. -/
theorem uploadGeoJSON_decode_failure_is_fatal :
    Tileset.UploadGeoJSON ⟨⟨"tok", false⟩, "u", "t"⟩ (.ok ()) (.ok ())
      (.ok ⟨200, "notjson"⟩) (fun _ => none) (fun _ => none)
      = .fatal "json unmarshal error" :=
  rfl

/-- C2 amended: transport failures of SimpleGET, PostRequest and
QueryRequest are surfaced as plain propagated error returns, and
UploadGeoJSON propagates every error of the underlying multipart POST;
however, a transport failure inside PostUploadFileRequest dereferences
the nil response and panics instead of returning an error, and when JSON
decoding of a successful upload response fails, UploadGeoJSON terminates
the process via `log.Fatal` instead of propagating the error. -/
theorem client_error_surfacing (b : Base) (t : Tileset) (url query : String)
    (v : Values) (data : Option String)
    (openR createR : Except String Unit) (doResult : HTTPResult)
    (decodeAPIMessage : String → Option MapboxAPIMessage)
    (decodeUpload : String → Option UploadResponse) :
    (∀ e, b.SimpleGET url (.error e) = .error (.external e))
    ∧ (∀ e, b.PostRequest url data (.error e) = .error (.external e))
    ∧ (∀ e, b.QueryRequest query v (.ok ()) (.error e) = (none, some (.external e)))
    ∧ (∀ e, b.PostUploadFileRequest (.ok ()) (.ok ()) (.error e) decodeAPIMessage
      = .panic "runtime error: invalid memory address or nil pointer dereference")
    ∧ (∀ e, t.base.PostUploadFileRequest openR createR doResult decodeAPIMessage = .err e →
      t.UploadGeoJSON openR createR doResult decodeAPIMessage decodeUpload = .err e)
    ∧ (∀ res, t.base.PostUploadFileRequest openR createR doResult decodeAPIMessage = .ok res →
      decodeUpload res = none →
      t.UploadGeoJSON openR createR doResult decodeAPIMessage decodeUpload
        = .fatal "json unmarshal error") := by
  refine ⟨fun e => rfl, fun e => rfl, fun e => rfl, fun e => rfl,
    fun e h => ?_, fun res h hd => ?_⟩
  · simp [Tileset.UploadGeoJSON, h]
  · simp [Tileset.UploadGeoJSON, h, hd]

/-- Witness for `client_error_surfacing`: a transport failure "eof"
propagates through SimpleGET, the same failure inside
PostUploadFileRequest panics, a failed upload POST propagates its error
through UploadGeoJSON, and an undecodable body after a successful upload
POST is fatal. -/
theorem client_error_surfacing_witness :
    Base.SimpleGET ⟨"tok", false⟩ "path" (.error "eof") = .error (.external "eof")
    ∧ Base.PostUploadFileRequest ⟨"tok", false⟩ (.ok ()) (.ok ()) (.error "eof")
      (fun _ => none)
      = .panic "runtime error: invalid memory address or nil pointer dereference"
    ∧ Tileset.UploadGeoJSON ⟨⟨"tok", false⟩, "u", "t"⟩ (.error "no such file") (.ok ())
      (.ok ⟨200, "body"⟩) (fun _ => none) (fun _ => none)
      = .err (.external "no such file")
    ∧ Tileset.UploadGeoJSON ⟨⟨"tok", false⟩, "u", "t"⟩ (.ok ()) (.ok ())
      (.ok ⟨200, "body"⟩) (fun _ => none) (fun _ => none)
      = .fatal "json unmarshal error" := by
  obtain ⟨hget, _, _, hpanic, hprop, _⟩ := client_error_surfacing ⟨"tok", false⟩
    ⟨⟨"tok", false⟩, "u", "t"⟩ "path" "q" [] none (.error "no such file") (.ok ())
    (.ok ⟨200, "body"⟩) (fun _ => none) (fun _ => none)
  obtain ⟨_, _, _, _, _, hfatal2⟩ := client_error_surfacing ⟨"tok", false⟩
    ⟨⟨"tok", false⟩, "u", "t"⟩ "path" "q" [] none (.ok ()) (.ok ())
    (.ok ⟨200, "body"⟩) (fun _ => none) (fun _ => none)
  exact ⟨hget "eof", hpanic "eof", hprop (.external "no such file") rfl,
    hfatal2 "body" rfl rfl⟩

end GoMapbox
